import Mathlib

/-!
Shallow embedding of the core compiler pipeline of this repository
(src/compiler: tokenizer data model, my_ast, my_types, parser, typechecker,
my_ir, ir_generator, assembly_generator), together with proofs settling the
frozen claims about it.

Conventions of the embedding:
* Python functions that mutate state are embedded as state-passing functions;
  the shared instruction list of the IR generator and the parser position are
  threaded explicitly.
* Code paths that raise a Python exception are embedded as `Except PyErr`.
* Recursive procedures take an explicit fuel argument; running out of fuel is
  the distinguished error `PyErr.outOfFuel`, which no real code path produces.
* Machine integers are `Int` (Python integers are unbounded).
-/

namespace Spec2Proof

/-- Errors: each constructor stands for a kind of Python exception the source
can raise. `outOfFuel` is an artifact of the fuel-based embedding only. -/
inductive PyErr where
  /-- `raise Exception(msg)` -/
  | exc (msg : String)
  /-- `raise TypeError(msg)` -/
  | typeError (msg : String)
  /-- calling `cls.__init__` with a keyword argument `kw` it does not accept -/
  | typeErrorKwarg (cls kw : String)
  /-- attribute lookup failure, e.g. a dataclass field that does not exist -/
  | attributeError (msg : String)
  /-- `int(text)` on a non-numeric string -/
  | valueError (msg : String)
  /-- indexing an empty list, e.g. `ins[-1]` with no emitted instructions -/
  | indexError
  /-- dict lookup miss -/
  | keyError (k : String)
  | outOfFuel
  deriving DecidableEq, Repr

/-- tokenizer.py: `SourceLocation` dataclass (line, column, any). -/
structure SourceLocation where
  line : Int := -1
  column : Int := -1
  any : Bool := false
  deriving DecidableEq, Repr

/-- tokenizer.py: `TokenType` enum. -/
inductive TokenType where
  | LITERAL | IDENTIFIER | OPERATOR | PUNCTUATION | OTHER | END
  deriving DecidableEq, Repr

/-- tokenizer.py: `Token` dataclass. -/
structure Token where
  text : String
  type : TokenType
  source_loc : SourceLocation
  deriving DecidableEq, Repr

/-- The value stored in `my_ast.Literal.value`: a Python `int`, `bool` or `None`. -/
inductive LitVal where
  | int (n : Int)
  | bool (b : Bool)
  | none
  deriving DecidableEq, Repr

/-- Python `==` on literal values: `True == 1` and `False == 0` hold
(`bool` is a subclass of `int`), `None` equals only `None`. -/
def litValEq : LitVal → LitVal → Bool
  | .int a, .int b => a == b
  | .bool a, .bool b => a == b
  | .int a, .bool b => a == (if b then 1 else 0)
  | .bool a, .int b => (if a then 1 else 0) == b
  | .none, .none => true
  | _, _ => false

/-- my_ast.py: the `Expression` class hierarchy, one constructor per subclass,
with exactly the fields of the source (`source_loc` from the base class first).
`TopLevel` has no `returns_last` field and `Variable` no `type` field in
src/compiler/my_ast.py. `Variable.name` is `str | Function` in the source,
embedded as a sum whose right summand holds a `Function` node.
`EmptyExpression` and `FunctionCall` are referenced by the parser, type
checker, interpreter and tests but are missing from src/compiler/my_ast.py;
they are modelled from the spec, see below. -/
inductive Expression where
  | Literal (value : LitVal) (source_loc : Option SourceLocation)
  | Identifier (name : String) (source_loc : Option SourceLocation)
  | Boolean (value : Bool) (source_loc : Option SourceLocation)
  | BinaryOp (left : Expression) (op : String) (right : Expression)
      (source_loc : Option SourceLocation)
  | UnaryOp (op : String) (target : Expression) (source_loc : Option SourceLocation)
  | IfThen (if_expr then_expr : Expression) (source_loc : Option SourceLocation)
  | IfThenElse (if_expr then_expr else_expr : Expression)
      (source_loc : Option SourceLocation)
  | WhileDo (condition do_expr : Expression) (source_loc : Option SourceLocation)
  | Function (name : String) (params : List Expression)
      (source_loc : Option SourceLocation)
  | Block (expressions : List Expression) (returns_last : Bool)
      (source_loc : Option SourceLocation)
  | TopLevel (expressions : List Expression) (source_loc : Option SourceLocation)
  | Variable (name : String ⊕ Expression) (value : Expression)
      (source_loc : Option SourceLocation)
  /-- Modelled from the spec: `EmptyExpression` (parse of empty input) is in the
  spec's AST variant list and is imported by the repository's tests, but its
  class definition is missing from src/compiler/my_ast.py. -/
  | EmptyExpression (source_loc : Option SourceLocation)
  /-- Modelled from the spec: `FunctionCall(name, args)` is in the spec's AST
  variant list and is imported by the repository's tests, but its class
  definition is missing from src/compiler/my_ast.py. -/
  | FunctionCall (name : String) (args : List Expression)
      (source_loc : Option SourceLocation)
  deriving Repr

/-- A value held in one field of an AST node, as Python's generic
`Expression.__eq__` sees it when it walks `self.__dict__`. -/
inductive PyFieldVal where
  | loc (l : Option SourceLocation)
  | str (s : String)
  | lit (v : LitVal)
  | exprs (es : List Expression)
  | expr (e : Expression)

/-- The `__dict__` of an AST node: field names with their values, in insertion
order (the base `Expression.__init__` stores `source_loc` first, then the
subclass `__init__` stores its own fields in positional order). -/
def fieldsOf : Expression → List (String × PyFieldVal)
  | .Literal v l => [("source_loc", .loc l), ("value", .lit v)]
  | .Identifier n l => [("source_loc", .loc l), ("name", .str n)]
  | .Boolean b l => [("source_loc", .loc l), ("value", .lit (.bool b))]
  | .BinaryOp a op b l =>
      [("source_loc", .loc l), ("left", .expr a), ("op", .str op), ("right", .expr b)]
  | .UnaryOp op t l => [("source_loc", .loc l), ("op", .str op), ("target", .expr t)]
  | .IfThen i t l => [("source_loc", .loc l), ("if_expr", .expr i), ("then_expr", .expr t)]
  | .IfThenElse i t e l =>
      [("source_loc", .loc l), ("if_expr", .expr i), ("then_expr", .expr t),
       ("else_expr", .expr e)]
  | .WhileDo c d l => [("source_loc", .loc l), ("condition", .expr c), ("do_expr", .expr d)]
  | .Function n ps l => [("source_loc", .loc l), ("name", .str n), ("params", .exprs ps)]
  | .Block es r l =>
      [("source_loc", .loc l), ("expressions", .exprs es), ("returns_last", .lit (.bool r))]
  | .TopLevel es l => [("source_loc", .loc l), ("expressions", .exprs es)]
  | .Variable nm v l =>
      [("source_loc", .loc l),
       ("name", match nm with | .inl s => .str s | .inr f => .expr f),
       ("value", .expr v)]
  | .EmptyExpression l => [("source_loc", .loc l)]
  | .FunctionCall n args l =>
      [("source_loc", .loc l), ("name", .str n), ("args", .exprs args)]

mutual

/-- Python `==` across the value kinds that occur in AST fields: values of
different kinds compare unequal (except the numeric `bool`/`int` case inside
`litValEq`); `Expression` values recurse into `pyExprEq`; tuples compare
elementwise. -/
def pyValEq : Nat → PyFieldVal → PyFieldVal → Bool
  | _, .loc a, .loc b => decide (a = b)
  | _, .str a, .str b => a == b
  | _, .lit a, .lit b => litValEq a b
  | n, .expr a, .expr b => pyExprEq n a b
  | n, .exprs a, .exprs b => pyExprListEq n a b
  | _, _, _ => false

/-- Python `==` on tuples of expressions: equal length and elementwise equal. -/
def pyExprListEq : Nat → List Expression → List Expression → Bool
  | _, [], [] => true
  | n, x :: xs, y :: ys => pyExprEq n x y && pyExprListEq n xs ys
  | _, _, _ => false

/-- my_ast.py `Expression.__eq__` body: `zip(self.__dict__, value.__dict__)`
pairs the two field lists positionally and stops at the shorter one; a pair of
unequal values is forgiven only when both field names are `source_loc`. -/
def pyFieldsEq : Nat → List (String × PyFieldVal) → List (String × PyFieldVal) → Bool
  | n, (n1, v1) :: r1, (n2, v2) :: r2 =>
      (pyValEq n v1 v2 || (n1 == "source_loc" && n2 == "source_loc")) &&
        pyFieldsEq n r1 r2
  | _, _, _ => true

/-- my_ast.py `Expression.__eq__`: both sides are `Expression` instances here,
so the `isinstance` guard passes and the positional field walk decides.
Note that the node variants (classes) are never compared. -/
def pyExprEq : Nat → Expression → Expression → Bool
  | 0, _, _ => false
  | n + 1, a, b => pyFieldsEq n (fieldsOf a) (fieldsOf b)

end

/-- my_types.py: `Int | Bool | Unit | FunType(type_args, return_type)`. -/
inductive MyType where
  | Int
  | Bool
  | Unit
  | FunType (type_args : List MyType) (return_type : MyType)
  deriving Repr

mutual

/-- my_types.py `==`: `Int`/`Bool`/`Unit` define `__eq__` as
`self.__class__ == value.__class__`; `FunType` is a `@dataclass` without a
hand-written `__eq__`, so it uses the dataclass-generated one, which compares
`(self.type_args, self.return_type)` with the other instance's tuple (and is
false against any non-`FunType`). -/
def myTypeEq : MyType → MyType → Bool
  | .Int, .Int => true
  | .Bool, .Bool => true
  | .Unit, .Unit => true
  | .FunType a r, .FunType b s => myTypeListEq a b && myTypeEq r s
  | _, _ => false

/-- Python tuple equality on `FunType.type_args`. -/
def myTypeListEq : List MyType → List MyType → Bool
  | [], [] => true
  | x :: xs, y :: ys => myTypeEq x y && myTypeListEq xs ys
  | _, _ => false

end

/-- The `__class__` name of a my_types instance, used where the source
compares types by class (`left_type.__class__ != fun_type.type_args[0].__class__`). -/
def MyType.className : MyType → String
  | .Int => "Int"
  | .Bool => "Bool"
  | .Unit => "Unit"
  | .FunType _ _ => "FunType"

/-- Variant-only comparison `a.__class__ == b.__class__` on my_types values. -/
def sameClass (a b : MyType) : Bool := a.className == b.className

/-- Python `isinstance(t, (Int | Bool | Unit))`. -/
def myTypeIsBasic : MyType → Bool
  | .FunType _ _ => false
  | _ => true

/-- The `source_loc` field every AST node carries (my_ast.py base class). -/
def Expression.source_loc : Expression → Option SourceLocation
  | .Literal _ l | .Identifier _ l | .Boolean _ l | .BinaryOp _ _ _ l
  | .UnaryOp _ _ l | .IfThen _ _ l | .IfThenElse _ _ _ l | .WhileDo _ _ l
  | .Function _ _ l | .Block _ _ l | .TopLevel _ l | .Variable _ _ l
  | .EmptyExpression l | .FunctionCall _ _ l => l

/-! ## Parser (src/compiler/parser.py) -/

/-- parser.py: `left_associative_binary_operators`. -/
def left_associative_binary_operators : List (List String) :=
  [["="], ["or"], ["and"], ["==", "!="], ["<", "<=", ">", ">="],
   ["+", "-"], ["*", "/", "%"]]

/-- The mutable state of `parse`'s closures: the position `pos` and the
`last_consumed` token. -/
structure PState where
  pos : Nat
  last_consumed : Option Token
  deriving Repr

/-- parser.py `peek()`: the next token, or an `END` token carrying the last
input token's location once the list is exhausted (`parse` only runs on a
non-empty list, so `tokens[-1]` exists; the default covers the impossible
empty case). -/
def peek (tokens : List Token) (s : PState) : Token :=
  match tokens.get? s.pos with
  | some t => t
  | Option.none =>
      { text := ""
        type := .END
        source_loc := ((tokens.getLast?).map Token.source_loc).getD {} }

/-- parser.py `consume(expected)`: like `peek` but advances `pos` and records
`last_consumed`; a string or string-list `expected` must match the token. -/
def consume (tokens : List Token) (expected : Option (String ⊕ List String))
    (s : PState) : Except PyErr (Token × PState) :=
  let token := peek tokens s
  let advance : Except PyErr (Token × PState) :=
    .ok (token, { pos := s.pos + 1, last_consumed := some token })
  match expected with
  | Option.none => advance
  | some (.inl e) =>
      if token.text ≠ e then
        .error (.exc ("expected \"" ++ e ++ "\", but got \"" ++ token.text ++ "\""))
      else advance
  | some (.inr l) =>
      if token.text ∉ l then
        let comma_separated := String.intercalate ", " (l.map (fun e => "\"" ++ e ++ "\""))
        .error (.exc ("expected one of: " ++ comma_separated))
      else advance

/-- parser.py `parse_variable_declaration.parse_type`: reads one of
`Int`/`Bool`/`Unit` and consumes the type token. -/
def parse_type (tokens : List Token) (s : PState) : Except PyErr (MyType × PState) := do
  let t := peek tokens s
  let ty : MyType ←
    if t.text = "Int" then .ok .Int
    else if t.text = "Bool" then .ok .Bool
    else if t.text = "Unit" then .ok .Unit
    else .error (.exc ("Expected Int, Bool or Unit as type, but got " ++ t.text))
  let (_, s) ← consume tokens (some (.inr ["Int", "Bool", "Unit"])) s
  .ok (ty, s)

/-- Python `int(text)` for the tokenizer's literal tokens: a non-empty digit
string is read in base 10, anything else is a `ValueError` (the tokenizer's
literal pattern only produces digit strings, `true` and `false`). -/
def strToInt? (s : String) : Option Int :=
  let ds := s.toList
  if ds ≠ [] ∧ ds.all Char.isDigit then
    some (ds.foldl (fun acc c => acc * 10 + ((c.toNat : Int) - 48)) 0)
  else Option.none

/-- parser.py `parse_literal`: `true`/`false` become boolean literals, anything
else goes through `int(...)` (a failure there is Python's `ValueError`). -/
def parse_literal (tokens : List Token) (s : PState) :
    Except PyErr (Expression × PState) :=
  if (peek tokens s).type ≠ .LITERAL then
    .error (.exc "expected a literal")
  else do
    let (token, s) ← consume tokens Option.none s
    if token.text = "true" then
      .ok (.Literal (.bool true) (some token.source_loc), s)
    else if token.text = "false" then
      .ok (.Literal (.bool false) (some token.source_loc), s)
    else
      match strToInt? token.text with
      | some n => .ok (.Literal (.int n) (some token.source_loc), s)
      | Option.none => .error (.valueError token.text)

mutual

/-- parser.py `parse_expression`: parse one term at level 0, then run the
operator loop over every precedence level starting from index 0. -/
def parse_expression (tokens : List Token) :
    Nat → Bool → PState → Except PyErr (Expression × PState)
  | 0, _, _ => .error .outOfFuel
  | n + 1, allow_vars, s => do
      let (left, s) ← parse_term tokens n 0 allow_vars s
      parse_ops_loop tokens n 0 left s

/-- parser.py `parse_term`: parse a factor; unless the current level is the
`=` level, advance past it (the source's `level_index += 1`), then run the
same operator loop from there. -/
def parse_term (tokens : List Token) :
    Nat → Nat → Bool → PState → Except PyErr (Expression × PState)
  | 0, _, _, _ => .error .outOfFuel
  | n + 1, level_index, allow_vars, s => do
      let (left, s) ← parse_factor tokens n allow_vars s
      let level_index :=
        if left_associative_binary_operators.getD level_index [] ≠ ["="] then
          level_index + 1
        else level_index
      parse_ops_loop tokens n level_index left s

/-- The `for precedence_level in left_associative_binary_operators[i:]` /
`while peek().text in precedence_level` loop that appears verbatim in both
`parse_expression` and `parse_term`: consume an operator of the current
level, parse the right operand with `parse_term` at the level's own index
(`list.index` of the level, which for the `=` level means recursing without
advancing, hence right associativity there), and fold into a `BinaryOp`
carrying the left operand's source location. -/
def parse_ops_loop (tokens : List Token) :
    Nat → Nat → Expression → PState → Except PyErr (Expression × PState)
  | 0, _, _, _ => .error .outOfFuel
  | n + 1, level_index, left, s =>
      if level_index < left_associative_binary_operators.length then
        let precedence_level := left_associative_binary_operators.getD level_index []
        if (peek tokens s).text ∈ precedence_level then do
          let (operator_token, s) ← consume tokens Option.none s
          let operator := operator_token.text
          let new_level_index :=
            left_associative_binary_operators.findIdx (fun l => l == precedence_level)
          let (right, s) ← parse_term tokens n new_level_index false s
          let left := Expression.BinaryOp left operator right left.source_loc
          parse_ops_loop tokens n level_index left s
        else
          parse_ops_loop tokens n (level_index + 1) left s
      else
        .ok (left, s)

/-- parser.py `parse_factor`: dispatch on the next token; `var` is only
recognized when `allow_vars` is set (else it falls through to the identifier
branch); the final branches accept a literal or an identifier. -/
def parse_factor (tokens : List Token) :
    Nat → Bool → PState → Except PyErr (Expression × PState)
  | 0, _, _ => .error .outOfFuel
  | n + 1, allow_vars, s =>
      let t := peek tokens s
      if t.text = "(" then parse_parenthesized tokens n s
      else if t.text = "\x7b" then parse_block tokens n s
      else if t.text = "if" then parse_conditional tokens n s
      else if t.text ∈ ["not", "-"] then parse_unary tokens n s
      else if t.text = "while" then parse_while_do tokens n s
      else if allow_vars ∧ t.text = "var" then parse_variable_declaration tokens n s
      else if t.type = .LITERAL then parse_literal tokens s
      else if t.type = .IDENTIFIER then parse_identifier tokens n s
      else
        .error (.exc ("expected an integer literal or an identifier, but got \""
          ++ t.text ++ "\""))

/-- parser.py `parse_parenthesized`. -/
def parse_parenthesized (tokens : List Token) :
    Nat → PState → Except PyErr (Expression × PState)
  | 0, _ => .error .outOfFuel
  | n + 1, s => do
      let (_, s) ← consume tokens (some (.inl "(")) s
      let (expr, s) ← parse_expression tokens n false s
      let (_, s) ← consume tokens (some (.inl ")")) s
      .ok (expr, s)

/-- parser.py `parse_block`: `{`, then the statement loop, then `}`. -/
def parse_block (tokens : List Token) :
    Nat → PState → Except PyErr (Expression × PState)
  | 0, _ => .error .outOfFuel
  | n + 1, s => do
      let (block_start_token, s) ← consume tokens (some (.inl "\x7b")) s
      let ((expressions, returns_last), s) ← parse_block_loop tokens n [] false s
      let (_, s) ← consume tokens (some (.inl "\x7d")) s
      .ok (.Block expressions returns_last (some block_start_token.source_loc), s)

/-- parser.py `parse_block`'s `while peek().text != "\x7d"` loop: parse a
statement; if no `;` follows, either continue (when the previous statement's
last consumed token was `}` and the block is not ending) or mark
`returns_last` and break; otherwise consume the `;` and continue. -/
def parse_block_loop (tokens : List Token) :
    Nat → List Expression → Bool → PState →
    Except PyErr ((List Expression × Bool) × PState)
  | 0, _, _, _ => .error .outOfFuel
  | n + 1, expressions, returns_last, s =>
      if (peek tokens s).text ≠ "\x7d" then do
        let (expression, s) ← parse_expression tokens n true s
        let expressions := expressions ++ [expression]
        if (peek tokens s).text ≠ ";" then
          if (match s.last_consumed with
              | some lc => lc.text == "\x7d"
              | Option.none => false) && !((peek tokens s).text == "\x7d") then
            parse_block_loop tokens n expressions returns_last s
          else
            .ok ((expressions, true), s)
        else do
          let (_, s) ← consume tokens (some (.inl ";")) s
          parse_block_loop tokens n expressions returns_last s
      else
        .ok ((expressions, returns_last), s)

/-- parser.py `parse_top_level`: parse the first expression, run the `;`
loop, reject trailing input, and either return the single unterminated
expression bare or build a `TopLevel` — but
`my_ast.TopLevel(*expressions, returns_last=..., source_loc=...)` raises
`TypeError` because src/compiler/my_ast.py's `TopLevel.__init__` accepts no
`returns_last` keyword argument. -/
def parse_top_level (tokens : List Token) :
    Nat → PState → Except PyErr (Expression × PState)
  | 0, _ => .error .outOfFuel
  | n + 1, s => do
      let (first, s) ← parse_expression tokens n true s
      let ((expressions, returns_last), s) ← parse_top_level_loop tokens n [first] true s
      if (peek tokens s).type ≠ .END then
        .error (.exc ("invalid token \"" ++ (peek tokens s).text ++ "\""))
      else if expressions.length = 1 ∧ returns_last then
        .ok (expressions.headD (.EmptyExpression Option.none), s)
      else
        .error (.typeErrorKwarg "TopLevel" "returns_last")

/-- parser.py `parse_top_level`'s `while peek().text == ";"` loop. -/
def parse_top_level_loop (tokens : List Token) :
    Nat → List Expression → Bool → PState →
    Except PyErr ((List Expression × Bool) × PState)
  | 0, _, _, _ => .error .outOfFuel
  | n + 1, expressions, returns_last, s =>
      if (peek tokens s).text = ";" then do
        let (_, s) ← consume tokens (some (.inl ";")) s
        let returns_last := false
        if (peek tokens s).type ≠ .END then do
          let (e, s) ← parse_expression tokens n true s
          let expressions := expressions ++ [e]
          let returns_last := if (peek tokens s).type = .END then true else returns_last
          parse_top_level_loop tokens n expressions returns_last s
        else
          parse_top_level_loop tokens n expressions returns_last s
      else
        .ok ((expressions, returns_last), s)

/-- parser.py `parse_conditional`. -/
def parse_conditional (tokens : List Token) :
    Nat → PState → Except PyErr (Expression × PState)
  | 0, _ => .error .outOfFuel
  | n + 1, s => do
      let (if_token, s) ← consume tokens (some (.inl "if")) s
      let (if_expr, s) ← parse_expression tokens n false s
      let (_, s) ← consume tokens (some (.inl "then")) s
      let (then_expr, s) ← parse_expression tokens n false s
      if (peek tokens s).text = "else" then do
        let (_, s) ← consume tokens (some (.inl "else")) s
        let (else_expr, s) ← parse_expression tokens n false s
        .ok (.IfThenElse if_expr then_expr else_expr (some if_token.source_loc), s)
      else
        .ok (.IfThen if_expr then_expr (some if_token.source_loc), s)

/-- parser.py `parse_function`: called after the identifier when a `(`
follows; the built `Function(name, *params)` carries no source location. -/
def parse_function (tokens : List Token) :
    Nat → String → PState → Except PyErr (Expression × PState)
  | 0, _, _ => .error .outOfFuel
  | n + 1, name, s => do
      let (_, s) ← consume tokens (some (.inl "(")) s
      let (params, s) ←
        if (peek tokens s).text ≠ ")" then do
          let (first_param, s) ← parse_expression tokens n false s
          parse_params_loop tokens n [first_param] s
        else
          Except.ok (([] : List Expression), s)
      let (_, s) ← consume tokens (some (.inl ")")) s
      .ok (.Function name params Option.none, s)

/-- parser.py `parse_function`'s `while peek().text == ","` loop. -/
def parse_params_loop (tokens : List Token) :
    Nat → List Expression → PState →
    Except PyErr ((List Expression) × PState)
  | 0, _, _ => .error .outOfFuel
  | n + 1, params, s =>
      if (peek tokens s).text = "," then do
        let (_, s) ← consume tokens (some (.inl ",")) s
        let (param, s) ← parse_expression tokens n false s
        parse_params_loop tokens n (params ++ [param]) s
      else
        .ok (params, s)

/-- parser.py `parse_unary`. -/
def parse_unary (tokens : List Token) :
    Nat → PState → Except PyErr (Expression × PState)
  | 0, _ => .error .outOfFuel
  | n + 1, s =>
      if (peek tokens s).text = "not" then do
        let (not_token, s) ← consume tokens (some (.inl "not")) s
        let (target, s) ← parse_expression tokens n false s
        .ok (.UnaryOp "not" target (some not_token.source_loc), s)
      else if (peek tokens s).text = "-" then do
        let (minus_token, s) ← consume tokens (some (.inl "-")) s
        let (target, s) ← parse_expression tokens n false s
        .ok (.UnaryOp "-" target (some minus_token.source_loc), s)
      else
        .error (.exc ("expected \"not\" or \"-\", but got \""
          ++ (peek tokens s).text ++ "\""))

/-- parser.py `parse_variable_declaration`: `var`, a name (an identifier, or
a function head when a `(` follows the name), optional typing information,
`=`, and the value. When typing information was parsed the source builds
`my_ast.Variable(..., type=var_type, ...)`, which raises `TypeError`:
src/compiler/my_ast.py's `Variable.__init__` accepts no `type` keyword. -/
def parse_variable_declaration (tokens : List Token) :
    Nat → PState → Except PyErr (Expression × PState)
  | 0, _ => .error .outOfFuel
  | n + 1, s => do
      let (var_token, s) ← consume tokens (some (.inl "var")) s
      if (peek tokens s).type = .IDENTIFIER then do
        let (name, s) ← parse_identifier tokens n s
        let (var_type, s) ←
          if (peek tokens s).text = ":" then do
            let (_, s) ← consume tokens (some (.inl ":")) s
            if (peek tokens s).text = "(" then do
              let (_, s) ← consume tokens (some (.inl "(")) s
              let (first_type, s) ← parse_type tokens s
              let (param_types, s) ← parse_type_params_loop tokens n [first_type] s
              let (_, s) ← consume tokens (some (.inl ")")) s
              let (_, s) ← consume tokens (some (.inl "=>")) s
              let (return_type, s) ← parse_type tokens s
              Except.ok ((some (MyType.FunType param_types return_type) : Option MyType), s)
            else do
              let (bt, s) ← parse_type tokens s
              Except.ok ((some bt : Option MyType), s)
          else
            Except.ok ((Option.none : Option MyType), s)
        let (_, s) ← consume tokens (some (.inl "=")) s
        let (value, s) ← parse_expression tokens n false s
        match name with
        | .Function fname fparams floc =>
            (match value with
             | .Block _ _ _ =>
                 (match var_type with
                  | some _ => .error (.typeErrorKwarg "Variable" "type")
                  | Option.none =>
                      .ok (.Variable (.inr (.Function fname fparams floc)) value
                            (some var_token.source_loc), s))
             | _ => .error (.exc "Function value can only be a Block"))
        | .Identifier iname _ =>
            (match var_type with
             | some _ => .error (.typeErrorKwarg "Variable" "type")
             | Option.none =>
                 .ok (.Variable (.inl iname) value (some var_token.source_loc), s))
        | _ =>
            -- unreachable: `parse_identifier` yields an Identifier or a Function
            .error (.attributeError "name")
      else
        .error (.exc ("expected the name of the variable, but got \""
          ++ (peek tokens s).text ++ "\""))

/-- parser.py `parse_variable_declaration`'s `while peek().text == ","` loop
over function parameter types. -/
def parse_type_params_loop (tokens : List Token) :
    Nat → List MyType → PState → Except PyErr ((List MyType) × PState)
  | 0, _, _ => .error .outOfFuel
  | n + 1, param_types, s =>
      if (peek tokens s).text = "," then do
        let (_, s) ← consume tokens (some (.inl ",")) s
        let (param_type, s) ← parse_type tokens s
        parse_type_params_loop tokens n (param_types ++ [param_type]) s
      else
        .ok (param_types, s)

/-- parser.py `parse_while_do`. -/
def parse_while_do (tokens : List Token) :
    Nat → PState → Except PyErr (Expression × PState)
  | 0, _ => .error .outOfFuel
  | n + 1, s => do
      let (while_token, s) ← consume tokens (some (.inl "while")) s
      let (condition, s) ← parse_expression tokens n false s
      let (_, s) ← consume tokens (some (.inl "do")) s
      let (do_expr, s) ← parse_expression tokens n false s
      .ok (.WhileDo condition do_expr (some while_token.source_loc), s)

/-- parser.py `parse_identifier`: an identifier, reparsed as a function call
head when `(` follows. -/
def parse_identifier (tokens : List Token) :
    Nat → PState → Except PyErr (Expression × PState)
  | 0, _ => .error .outOfFuel
  | n + 1, s =>
      if (peek tokens s).type ≠ .IDENTIFIER then
        .error (.exc ("expected an identifier, but got \""
          ++ (peek tokens s).text ++ "\""))
      else do
        let (token, s) ← consume tokens Option.none s
        if (peek tokens s).text = "(" then parse_function tokens n token.text s
        else .ok (.Identifier token.text (some token.source_loc), s)

end

/-- parser.py `parse`: `EmptyExpression` for empty input (the class is
modelled from the spec — it is missing from src/compiler/my_ast.py), else
parse a top-level sequence from position 0. -/
def parse (fuel : Nat) (tokens : List Token) : Except PyErr Expression :=
  if tokens.length = 0 then .ok (.EmptyExpression Option.none)
  else (parse_top_level tokens fuel { pos := 0, last_consumed := Option.none }).map (·.1)

/-! ## Symbol tables (interpreter.py `SymTable`, typechecker.py `TypeTable`) -/

/-- interpreter.py `SymTable`, generic over the stored payload: a scope's
`locals` dict plus an optional `parent`. typechecker.py's `TypeTable` is the
structurally identical class with `MyType` payloads. -/
inductive SymTable (α : Type) where
  | mk (locals : List (String × α)) (parent : Option (SymTable α))

/-- Lookup in one scope's `locals` dict. -/
def lookupAssoc {α} (l : List (String × α)) (name : String) : Option α :=
  (l.find? (fun p => p.1 == name)).map (·.2)

def SymTable.locals {α} : SymTable α → List (String × α)
  | .mk l _ => l

def SymTable.parent {α} : SymTable α → Option (SymTable α)
  | .mk _ p => p

/-- `SymTable.lookup` / `TypeTable.lookup`: the local dict first, then the
parent chain, `None` when absent everywhere. -/
def SymTable.lookup {α} : SymTable α → String → Option α
  | .mk locals parent, name =>
      match lookupAssoc locals name with
      | some v => some v
      | Option.none =>
          match parent with
          | some p => p.lookup name
          | Option.none => Option.none

/-- `SymTable.add` / `TypeTable.add`: a redeclaration in the same scope
raises; otherwise the binding joins the scope's dict. -/
def SymTable.add {α} (t : SymTable α) (name : String) (value : α) :
    Except PyErr (SymTable α) :=
  if (lookupAssoc t.locals name).isSome then
    .error (.exc ("Variable " ++ name ++ " was already in the symbol table"))
  else
    .ok (.mk (t.locals ++ [(name, value)]) t.parent)

/-! ## Type checker (src/compiler/typechecker.py) -/

/-- typechecker.py `TypeTable`. -/
abbrev TypeTable := SymTable MyType

/-- typechecker.py `TypeTable.__init__` default `locals`: the built-in
operator/function signatures, exactly as registered in the source — note the
comparison operators `<`, `<=`, `>`, `>=` carry `return_type=Int()`
(typechecker.py lines 25-28). -/
def default_type_locals : List (String × MyType) :=
  [("+", .FunType [.Int, .Int] .Int),
   ("unary_-", .FunType [.Int] .Int),
   ("*", .FunType [.Int, .Int] .Int),
   ("/", .FunType [.Int, .Int] .Int),
   ("%", .FunType [.Int, .Int] .Int),
   ("<", .FunType [.Int, .Int] .Int),
   ("<=", .FunType [.Int, .Int] .Int),
   (">", .FunType [.Int, .Int] .Int),
   (">=", .FunType [.Int, .Int] .Int),
   ("or", .FunType [.Bool, .Bool] .Bool),
   ("and", .FunType [.Bool, .Bool] .Bool),
   ("unary_not", .FunType [.Bool] .Bool),
   ("while", .Unit),
   ("print_int", .FunType [.Int] .Unit),
   ("print_bool", .FunType [.Bool] .Unit),
   ("read_int", .FunType [] .Int)]

mutual

/-- typechecker.py `typecheck.get_type`, with the type table threaded
(Python mutates it in place; `add` only ever touches the table it is called
on, never a parent, so value-threading is faithful). Cases the source's
`match` does not cover (`IfThen`, `UnaryOp`, `Boolean`) fall through to the
`raise Exception("No match")` after the match statement — as does the
`"!="` branch of `BinaryOp` when the operand types are equal, since that
branch returns nothing. -/
def get_type : Nat → Expression → TypeTable → Except PyErr (MyType × TypeTable)
  | 0, _, _ => .error .outOfFuel
  | n + 1, node, type_table =>
      match node with
      | .EmptyExpression _ => .ok (.Unit, type_table)
      | .Literal v _ =>
          (match v with
           | .bool _ => .ok (.Bool, type_table)
           | .int _ => .ok (.Int, type_table)
           | .none => .ok (.Unit, type_table))
      | .Identifier name _ =>
          (match type_table.lookup name with
           | some value => .ok (value, type_table)
           | Option.none =>
               .error (.exc ("'" ++ name ++ "' does not exist in the type table")))
      | .Function name _ _ =>
          (match type_table.lookup name with
           | Option.none =>
               .error (.exc ("'" ++ name ++ "' does not exist in the type table"))
           | some (.FunType _ ret) => .ok (ret, type_table)
           | some _ =>
               .error (.exc ("TypeTable has function " ++ name
                 ++ ", but its value is not a FunType!")))
      | .Variable name value _ =>
          (match value with
           | .Function _ _ _ =>
               -- `isinstance(node.type, FunType)`: src/compiler/my_ast.py's
               -- `Variable` has no `type` attribute, so Python raises here
               .error (.attributeError "Variable.type")
           | _ => do
               let (value_type, type_table) ← get_type n value type_table
               match name with
               | .inl sname => do
                   let type_table ← type_table.add sname value_type
                   .ok (.Unit, type_table)
               | .inr _ =>
                   -- `type_table.add(node.name, ...)` with a `Function` AST node
                   -- as the dict key: my_ast nodes define `__eq__` but no
                   -- `__hash__`, so they are unhashable
                   .error (.typeError "unhashable type"))
      | .BinaryOp left op right _ => do
          let (left_type, tt) ← get_type n left type_table
          let (right_type, tt) ← get_type n right tt
          if op = "==" ∧ myTypeEq left_type right_type = false then
            .error (.typeError "")
          else if op = "!=" then
            if myTypeEq left_type right_type = false then .error (.typeError "")
            else .error (.exc "No match")
          else
            match tt.lookup op with
            | some (.FunType type_args return_type) =>
                (match type_args.get? 0, type_args.get? 1 with
                 | some a0, some a1 =>
                     if ¬ sameClass left_type a0 then
                       .error (.typeError ("Expected argument 1 to be "
                         ++ a0.className ++ ", but got " ++ left_type.className))
                     else if ¬ sameClass right_type a1 then
                       .error (.typeError ("Expected argument 2 to be "
                         ++ a1.className ++ ", but got " ++ right_type.className))
                     else .ok (return_type, tt)
                 | _, _ => .error .indexError)
            | _ =>
                .error (.exc ("'" ++ op
                  ++ "' does not have a matching type in the TypeTable"))
      | .IfThenElse if_expr then_expr else_expr _ => do
          let (t1, tt) ← get_type n if_expr type_table
          match t1 with
          | .Bool => do
              let (t2, tt) ← get_type n then_expr tt
              let (t3, tt) ← get_type n else_expr tt
              if myTypeEq t2 t3 = false then .error (.exc "")
              else .ok (t2, tt)
          | _ => .error (.exc "")
      | .WhileDo _ _ _ => .ok (.Unit, type_table)
      | .FunctionCall name _ _ =>
          (match type_table.lookup name with
           | some (.FunType _ ret) => .ok (ret, type_table)
           | _ =>
               .error (.exc ("TypeTable has function " ++ name
                 ++ ", but its value is not a FunType!")))
      | .Block exprs returns_last _ => do
          let block_type_table : TypeTable :=
            .mk default_type_locals (some type_table)
          let (block_exprs, _) ← get_type_list n exprs block_type_table
          if returns_last then
            match block_exprs.getLast? with
            | Option.none => .error .indexError
            | some return_type =>
                if myTypeIsBasic return_type then .ok (return_type, type_table)
                else .error (.exc "Block return type was not a basic type")
          else .ok (.Unit, type_table)
      | .TopLevel exprs _ => do
          let (_, tt) ← get_type_list n exprs type_table
          -- `node.returns_last`: src/compiler/my_ast.py's `TopLevel` has no
          -- such field, so Python raises here
          let _ := tt
          .error (.attributeError "TopLevel.returns_last")
      | _ => .error (.exc "No match")

/-- The `for expr in node.expressions` loops of the `Block`/`TopLevel`
cases: check each child in order, collecting the types. -/
def get_type_list : Nat → List Expression → TypeTable →
    Except PyErr (List MyType × TypeTable)
  | _, [], tt => .ok ([], tt)
  | n, e :: rest, tt => do
      let (t, tt) ← get_type n e tt
      let (ts, tt) ← get_type_list n rest tt
      .ok (t :: ts, tt)

end

/-- typechecker.py `typecheck`: run `get_type` from a fresh root table (the
source also stores the result into `node.type`; the embedding returns it and
callers that need the annotation pass it along explicitly). -/
def typecheck (fuel : Nat) (node : Option Expression) : Except PyErr MyType :=
  match node with
  | Option.none => .ok .Unit
  | some node =>
      (get_type fuel node (.mk default_type_locals Option.none)).map (·.1)

/-! ## IR (src/compiler/my_ir.py) -/

/-- my_ir.py `IRVar`: an opaque handle compared by name. -/
structure IRVar where
  name : String
  deriving DecidableEq, Repr

/-- my_ir.py `Label`: an `Instruction` subclass, so its dataclass fields are
the base class's `loc` first, then `name`. -/
structure Label where
  loc : Option SourceLocation
  name : String
  deriving DecidableEq, Repr

/-- my_ir.py `Instruction` subclasses, one constructor each; a `Label`
object is itself appended to the instruction list, hence the wrapping
constructor. Every other constructor ends with the base class's `loc`. -/
inductive Instruction where
  | Label (lbl : Label)
  | LoadBoolConst (value : Bool) (dest : IRVar) (loc : Option SourceLocation)
  | LoadIntConst (value : Int) (dest : IRVar) (loc : Option SourceLocation)
  | Copy (source : IRVar) (dest : IRVar) (loc : Option SourceLocation)
  | Call (f : IRVar) (args : List IRVar) (dest : IRVar) (loc : Option SourceLocation)
  | Jump (label : Label) (loc : Option SourceLocation)
  | CondJump (cond : IRVar) (then_label else_label : Label)
      (loc : Option SourceLocation)
  deriving DecidableEq, Repr

/-! ## IR generator (src/compiler/ir_generator.py) -/

/-- interpreter.py `DEFAULT_LOCALS` keys, in dict insertion order: the
built-in names `generate_ir` reserves when called with `reserved_names=None`. -/
def DEFAULT_LOCALS_keys : List String :=
  ["+", "-", "unary_-", "*", "/", "%", "<", "<=", ">", ">=", "==", "!=",
   "or", "and", "unary_not", "while", "print_int", "print_bool", "read_int",
   "print_int_params", "print_bool_params", "read_int_params"]

/-- The mutable state shared by `generate_ir`'s closures: the
`reserved_names` set (grown by `new_var`/`new_label`) and the instruction
list `ins` (grown by `ins.append`). -/
structure IRState where
  reserved_names : List String
  ins : List Instruction
  deriving Repr

/-- ir_generator.py `var_unit`. -/
def var_unit : IRVar := ⟨"unit"⟩

/-- `ins.append(instruction)`. -/
def emit (st : IRState) (i : Instruction) : IRState :=
  { st with ins := st.ins ++ [i] }

/-- ir_generator.py `new_var`: the first `v{i}` with `i` in `range(100)` not
yet in `reserved_names`, which it joins; exhaustion raises. -/
def new_var (st : IRState) : Except PyErr (IRVar × IRState) :=
  match (List.range 100).find? (fun i => decide (s!"v{i}" ∉ st.reserved_names)) with
  | some i =>
      .ok (⟨s!"v{i}"⟩, { st with reserved_names := st.reserved_names ++ [s!"v{i}"] })
  | Option.none => .error (.exc "Ran out of variables!")

/-- ir_generator.py `new_label`. -/
def new_label (loc : SourceLocation) (st : IRState) :
    Except PyErr (Label × IRState) :=
  match (List.range 100).find? (fun i => decide (s!"L{i}" ∉ st.reserved_names)) with
  | some i =>
      .ok ({ loc := some loc, name := s!"L{i}" },
        { st with reserved_names := st.reserved_names ++ [s!"L{i}"] })
  | Option.none => .error (.exc "Ran out of labels!")

/-- The `for name in reserved_names: table.add(name, IRVar(name))` seeding
loop, used for the root scope and re-run (over the then-current reserved
names, with no parent link) for every `Block` scope. -/
def seed_sym_table (reserved : List String) : Except PyErr (SymTable IRVar) :=
  reserved.foldlM (fun t name => t.add name ⟨name⟩) (SymTable.mk [] Option.none)

mutual

/-- ir_generator.py `visit`: lowers one AST node, appending to the shared
instruction list and returning the result variable. The symbol table is
threaded alongside (`Variable` adds to the scope it is given). -/
def visit : Nat → SymTable IRVar → Expression → IRState →
    Except PyErr (IRVar × SymTable IRVar × IRState)
  | 0, _, _, _ => .error .outOfFuel
  | n + 1, sym_table, expr, st =>
      match expr.source_loc with
      | Option.none => .error (.exc "Missing SourceLocation")
      | some loc =>
          match expr with
          | .Literal v _ =>
              (match v with
               | .bool b => do
                   let (var, st) ← new_var st
                   .ok (var, sym_table, emit st (.LoadBoolConst b var (some loc)))
               | .int i => do
                   let (var, st) ← new_var st
                   .ok (var, sym_table, emit st (.LoadIntConst i var (some loc)))
               | .none => .ok (var_unit, sym_table, st))
          | .Identifier name _ =>
              (match sym_table.lookup name with
               | some ir_var => .ok (ir_var, sym_table, st)
               | Option.none => .error (.exc (name ++ " not found in IR Table")))
          | .Variable name value _ =>
              (match name with
               | .inr _ => .error (.exc "Not implemented!")
               | .inl sname => do
                   let (value_ir, sym_table, st) ← visit n sym_table value st
                   let sym_table ← sym_table.add sname value_ir
                   .ok (var_unit, sym_table, st))
          | .UnaryOp op target _ =>
              (match target with
               | .Literal tv _ =>
                   if op = "-" then
                     match tv with
                     | .int i => do
                         let (var, st) ← new_var st
                         .ok (var, sym_table,
                           emit st (.LoadIntConst (-i) var (some loc)))
                     | .bool b => do
                         -- Python `isinstance(value, int)` also accepts a bool
                         let (var, st) ← new_var st
                         .ok (var, sym_table,
                           emit st (.LoadIntConst (-(if b then 1 else 0)) var (some loc)))
                     | .none => .error (.exc "Target of '-' was not an int")
                   else if op = "not" then do
                     -- `LoadBoolConst(not expr.target, var)`: the operand of
                     -- `not` is the Literal AST *object* (`expr.target`), not
                     -- its value; AST nodes are always truthy in Python, so the
                     -- loaded constant is False whatever the literal holds
                     let (var, st) ← new_var st
                     .ok (var, sym_table,
                       emit st (.LoadBoolConst false var (some loc)))
                   else .error (.exc "Expected either '-' or 'not")
               | _ => .error (.exc "Target of an unary function was not a Literal"))
          | .BinaryOp left op right _ =>
              if op = "=" then
                match left with
                | .Identifier _ _ => do
                    let (var_left, sym_table, st) ← visit n sym_table left st
                    let (var_right, sym_table, st) ← visit n sym_table right st
                    .ok (var_unit, sym_table,
                      emit st (.Copy var_right var_left (some loc)))
                | _ => .error (.exc "is not an identifier")
              else do
                let (var_left, sym_table, st) ← visit n sym_table left st
                -- short-circuit heuristic: inspect the last emitted instruction
                -- (`ins[-1]`, an IndexError when nothing was emitted yet)
                if op = "or" then
                  match st.ins.getLast? with
                  | Option.none => .error .indexError
                  | some (.LoadBoolConst true _ _) => do
                      let (var, st) ← new_var st
                      .ok (var, sym_table,
                        emit st (.LoadBoolConst true var (some loc)))
                  | some _ => visit_bin_tail n sym_table op var_left right loc st
                else if op = "and" then
                  match st.ins.getLast? with
                  | Option.none => .error .indexError
                  | some (.LoadBoolConst false _ _) => do
                      let (var, st) ← new_var st
                      .ok (var, sym_table,
                        emit st (.LoadBoolConst false var (some loc)))
                  | some _ => visit_bin_tail n sym_table op var_left right loc st
                else visit_bin_tail n sym_table op var_left right loc st
          | .IfThen if_expr then_expr _ => do
              let (l_then, st) ← new_label loc st
              let (l_end, st) ← new_label loc st
              let (var_cond, sym_table, st) ← visit n sym_table if_expr st
              let st := emit st (.CondJump var_cond l_then l_end (some loc))
              let st := emit st (.Label l_then)
              let (_, sym_table, st) ← visit n sym_table then_expr st
              let st := emit st (.Label l_end)
              .ok (var_unit, sym_table, st)
          | .IfThenElse if_expr then_expr _ _ => do
              let (l_then, st) ← new_label loc st
              let (l_else, st) ← new_label loc st
              let (l_end, st) ← new_label loc st
              let (var_cond, sym_table, st) ← visit n sym_table if_expr st
              -- source line 167: the CondJump's false target is `l_end`, the
              -- join label, not `l_else`
              let st := emit st (.CondJump var_cond l_then l_end (some loc))
              let st := emit st (.Label l_then)
              let (_, sym_table, st) ← visit n sym_table then_expr st
              let st := emit st (.Jump l_end (some loc))
              let st := emit st (.Label l_else)
              -- source line 174 lowers `expr.then_expr` again here;
              -- `expr.else_expr` is never visited
              let (_, sym_table, st) ← visit n sym_table then_expr st
              let st := emit st (.Label l_end)
              .ok (var_unit, sym_table, st)
          | .TopLevel exprs _ => do
              let (sym_table, st) ← visit_children n sym_table exprs st
              .ok (var_unit, sym_table, st)
          | .Block exprs _ _ => do
              let block_sym_table ← seed_sym_table st.reserved_names
              let (_, st) ← visit_children n block_sym_table exprs st
              .ok (var_unit, sym_table, st)
          | _ => .error (.exc "Didn't match any ast!")

/-- The non-assignment, non-short-circuited tail of the `BinaryOp` case:
look the operator up, lower the right operand, emit the `Call`. -/
def visit_bin_tail : Nat → SymTable IRVar → String → IRVar → Expression →
    SourceLocation → IRState → Except PyErr (IRVar × SymTable IRVar × IRState)
  | 0, _, _, _, _, _, _ => .error .outOfFuel
  | n + 1, sym_table, op, var_left, right, loc, st =>
      match sym_table.lookup op with
      | Option.none => .error (.exc (op ++ " not found in IR Table"))
      | some var_op => do
          let (var_right, sym_table, st) ← visit n sym_table right st
          let (var_result, st) ← new_var st
          .ok (var_result, sym_table,
            emit st (.Call var_op [var_left, var_right] var_result (some loc)))

/-- The `for child_expr in expr.expressions` loops of `TopLevel`/`Block`. -/
def visit_children : Nat → SymTable IRVar → List Expression → IRState →
    Except PyErr (SymTable IRVar × IRState)
  | 0, _, _, _ => .error .outOfFuel
  | _ + 1, sym_table, [], st => .ok (sym_table, st)
  | n + 1, sym_table, e :: rest, st => do
      let (_, sym_table, st) ← visit n sym_table e st
      visit_children n sym_table rest st

end

/-- Python `root_expr.type == Int` (and `== Bool`) in ir_generator.py's
finalization, where `Int` is the imported *class* object, not an instance:
`Int/Bool/Unit.__eq__` compare `self.__class__ == value.__class__`, and a
class object's `__class__` is the metaclass `type`, never one of the
my_types classes; `FunType`'s dataclass `__eq__` first requires the other
operand's class to be `FunType` itself. The comparison is therefore false
for every instance; the class-name operand is kept for documentation. -/
def instEqClassObj (t : MyType) (_clsName : String) : Bool :=
  match t with
  | .FunType _ _ => false
  | _ => t.className == "type"

/-- ir_generator.py `generate_ir`. `root_type` models the `type` attribute
that `typecheck` stores on the root node (`Option.none` when type checking
never ran, in which case reading `root_expr.type` raises
`AttributeError`). -/
def generate_ir (fuel : Nat) (reserved_names : Option (List String))
    (root_expr : Expression) (root_type : Option MyType) :
    Except PyErr (List Instruction) := do
  let reserved :=
    match reserved_names with
    | some r => r
    | Option.none => DEFAULT_LOCALS_keys
  let st : IRState := { reserved_names := reserved, ins := [] }
  let root_sym_table ← seed_sym_table st.reserved_names
  let (var_final_result, _, st) ← visit fuel root_sym_table root_expr st
  match root_type with
  | Option.none => .error (.attributeError "Expression.type")
  | some t =>
      if instEqClassObj t "Int" then do
        let (v, st) ← new_var st
        .ok ((emit st (.Call ⟨"print_int"⟩ [var_final_result] v Option.none)).ins)
      else if instEqClassObj t "Bool" then do
        let (v, st) ← new_var st
        .ok ((emit st (.Call ⟨"print_bool"⟩ [var_final_result] v Option.none)).ins)
      else .ok st.ins

/-! ## Assembly generator (src/compiler/assembly_generator.py) -/

/-- Python `str` of an optional source location: `None`, or the
`SourceLocation.__repr__` `(line, column)` / `(any=True)`. -/
def locStr : Option SourceLocation → String
  | Option.none => "None"
  | some l =>
      if l.any then "(any=True)"
      else "(" ++ toString l.line ++ ", " ++ toString l.column ++ ")"

/-- Python `str` of a bool. -/
def pyBoolStr (b : Bool) : String := if b then "True" else "False"

/-- Python `str` of a `Label` object: `Instruction.__str__` renders the
class name with the dataclass fields (`loc` first). -/
def labelStr (l : Label) : String :=
  "Label(" ++ locStr l.loc ++ ", " ++ l.name ++ ")"

/-- my_ir.py `Instruction.__str__`: the class name applied to every
dataclass field (`loc` first; the `!= 'location'` filter never fires since
the field is named `loc`), lists rendered in brackets, `IRVar`s by name. -/
def instrStr : Instruction → String
  | .Label lbl => labelStr lbl
  | .LoadBoolConst value dest loc =>
      "LoadBoolConst(" ++ locStr loc ++ ", " ++ pyBoolStr value ++ ", "
        ++ dest.name ++ ")"
  | .LoadIntConst value dest loc =>
      "LoadIntConst(" ++ locStr loc ++ ", " ++ toString value ++ ", "
        ++ dest.name ++ ")"
  | .Copy source dest loc =>
      "Copy(" ++ locStr loc ++ ", " ++ source.name ++ ", " ++ dest.name ++ ")"
  | .Call f args dest loc =>
      "Call(" ++ locStr loc ++ ", " ++ f.name ++ ", ["
        ++ String.intercalate ", " (args.map IRVar.name) ++ "], "
        ++ dest.name ++ ")"
  | .Jump label loc => "Jump(" ++ locStr loc ++ ", " ++ labelStr label ++ ")"
  | .CondJump cond then_label else_label loc =>
      "CondJump(" ++ locStr loc ++ ", " ++ cond.name ++ ", "
        ++ labelStr then_label ++ ", " ++ labelStr else_label ++ ")"

/-- The `IRVar`-valued dataclass fields of one instruction, in declaration
order (base `loc` first, which is never an `IRVar`; `Call.args` contributes
elementwise; `Label` fields of `Jump`/`CondJump` are not `IRVar`s). This is
what `get_all_ir_variables`' `isinstance` walk sees. -/
def instructionIRVars : Instruction → List IRVar
  | .Label _ => []
  | .LoadBoolConst _ dest _ => [dest]
  | .LoadIntConst _ dest _ => [dest]
  | .Copy source dest _ => [source, dest]
  | .Call f args dest _ => [f] ++ args ++ [dest]
  | .Jump _ _ => []
  | .CondJump cond _ _ _ => [cond]

/-- assembly_generator.py `get_all_ir_variables.add`: append the variable
unless it is already in the result (`result_set` mirrors membership in
`result_list`, so one list suffices). -/
def addVar (acc : List IRVar) (v : IRVar) : List IRVar :=
  if v ∈ acc then acc else acc ++ [v]

/-- assembly_generator.py `get_all_ir_variables`: every distinct `IRVar`
referenced by the instructions, in first-occurrence order. -/
def get_all_ir_variables (instructions : List Instruction) : List IRVar :=
  instructions.foldl (fun acc insn => (instructionIRVars insn).foldl addVar acc) []

/-- Python dict assignment `d[k] = v`: overwrite the key if present, else
append the entry. -/
def dset {α : Type} (d : List (IRVar × α)) (k : IRVar) (v : α) : List (IRVar × α) :=
  if (d.find? (fun p => p.1 == k)).isSome then
    d.map (fun p => if p.1 == k then (k, v) else p)
  else
    d ++ [(k, v)]

/-- assembly_generator.py `Locals`: `offset` starts at 0 and drops by 8 per
variable; each variable maps to `f"{offset}(%rbp)"`; `_stack_used` is
`abs(offset)` after the loop. -/
structure Locals where
  var_to_location : List (IRVar × String)
  stack_used : Nat
  deriving Repr

/-- One iteration of `Locals.__init__`'s loop: drop `offset` by 8 and store
`f"{offset}(%rbp)"` for the variable. -/
def locals_step (a : List (IRVar × String) × Int) (var : IRVar) :
    List (IRVar × String) × Int :=
  let offset := a.2 - 8
  (dset a.1 var (toString offset ++ "(%rbp)"), offset)

/-- assembly_generator.py `Locals.__init__` (its `variables` parameter is
named `vars` here — `variables` is a Lean keyword). -/
def Locals.make (vars : List IRVar) : Locals :=
  let final := vars.foldl locals_step ([], 0)
  { var_to_location := final.1, stack_used := final.2.natAbs }

/-- assembly_generator.py `Locals.get_ref`; `Option.none` is Python's
`KeyError` on a variable that was never assigned a slot. -/
def Locals.get_ref (l : Locals) (v : IRVar) : Option String :=
  (l.var_to_location.find? (fun p => p.1 == v)).map (·.2)

/-- Modelled from the spec: the intrinsics registry (intrinsics.py is not
under src/ — the spec calls it an external collaborator consumed by the
assembly generator): `IntrinsicArgs` carries the argument-slot references
and a scratch-register name; the emit sink is modelled by having the
routine return the lines it emits. -/
structure IntrinsicArgs where
  arg_refs : List String
  result_register : String

/-- Modelled from the spec: `intrinsics.all_intrinsics`, a registry mapping
builtin names to code-emission routines. Theorems quantify over it. -/
abbrev Intrinsics : Type := List (String × (IntrinsicArgs → List String))

/-- assembly_generator.py `param_registers`. -/
def param_registers : List String := ["%rdi", "%rsi", "%rdx", "%rcx", "%r8", "%r9"]

/-- `locals.get_ref(v)` at a call site: a miss is a `KeyError`. -/
def getRef (locals_ : Locals) (v : IRVar) : Except PyErr String :=
  match locals_.get_ref v with
  | some r => .ok r
  | Option.none => .error (.keyError v.name)

/-- The per-instruction emission of assembly_generator.py's `for insn in
instructions` loop: the `# `-comment line followed by the instruction's
lines. -/
def emit_instruction (locals_ : Locals) (intr : Intrinsics) (insn : Instruction) :
    Except PyErr (List String) := do
  let body ←
    match insn with
    | .Label lbl => Except.ok ["", ".L" ++ lbl.name ++ ":"]
    | .LoadIntConst value dest _ => do
        let ref ← getRef locals_ dest
        if -(2 ^ 31 : Int) ≤ value ∧ value < 2 ^ 31 then
          Except.ok ["movq $" ++ toString value ++ ", " ++ ref]
        else
          -- the 64-bit immediate must go through a scratch register
          Except.ok ["movabsq $" ++ toString value ++ ", %rax",
                     "movq %rax, " ++ ref]
    | .LoadBoolConst value dest _ => do
        let ref ← getRef locals_ dest
        if value = true then Except.ok ["movq $1, " ++ ref]
        else Except.ok ["movq $0, " ++ ref]
    | .Copy source dest _ => do
        let sref ← getRef locals_ source
        let dref ← getRef locals_ dest
        Except.ok ["movq " ++ sref ++ ", %rax", "movq %rax, " ++ dref]
    | .Jump label _ => Except.ok ["jmp .L" ++ label.name]
    | .CondJump cond then_label else_label _ => do
        let cref ← getRef locals_ cond
        Except.ok ["cmpq $0, " ++ cref,
                   "jne .L" ++ then_label.name,
                   "jmp .L" ++ else_label.name]
    | .Call f args _ _ =>
        match lookupAssoc intr f.name with
        | some routine => do
            let refs ← args.mapM (getRef locals_)
            Except.ok (routine { arg_refs := refs, result_register := "%rax" })
        | Option.none => do
            -- move up to six arguments, then a tail call ending the function
            let moves ← (args.zip param_registers).mapM (fun p => do
              let r ← getRef locals_ p.1
              pure ("movq " ++ r ++ ", " ++ p.2))
            let fref ← getRef locals_ f
            Except.ok (moves ++ ["callq " ++ fref, "popq %rbp", "ret"])
  .ok (("# " ++ instrStr insn) :: body)

/-- The fixed lines assembly_generator.py emits before the instruction loop:
externs, the exported `main`, and the frame prologue reserving
`locals.stack_used()` bytes. -/
def prologue_lines (stack_used : Nat) : List String :=
  [".extern print_int", ".extern print_bool", ".extern read_int",
   ".global main", ".type main, @ function", ".section .text",
   "main:", "pushq %rbp", "movq %rsp, %rbp",
   "subq $" ++ toString stack_used ++ ", %rsp"]

/-- The fixed epilogue lines after the instruction loop. -/
def epilogue_lines : List String :=
  ["movq $0, %rax", "movq %rbp, %rsp", "popq %rbp", "ret"]

/-- assembly_generator.py `generate_assembly`, as the list of emitted lines. -/
def generate_assembly_lines (intr : Intrinsics) (instructions : List Instruction) :
    Except PyErr (List String) := do
  let locals_ := Locals.make (get_all_ir_variables instructions)
  let bodies ← instructions.mapM (emit_instruction locals_ intr)
  .ok (prologue_lines locals_.stack_used ++ bodies.flatten ++ epilogue_lines)

/-- assembly_generator.py `generate_assembly`: the emitted lines joined with
newlines. -/
def generate_assembly (intr : Intrinsics) (instructions : List Instruction) :
    Except PyErr String :=
  (generate_assembly_lines intr instructions).map (String.intercalate "\n")

/-! ## Concrete inputs used by the claims -/

/-- A token on line 1 at the given column, as the out-of-scope tokenizer
produces it. -/
def tok (text : String) (ty : TokenType) (column : Int) : Token :=
  { text := text, type := ty, source_loc := { line := 1, column := column } }

/-- A source location on line 1 at the given column. -/
def loc1 (column : Int) : Option SourceLocation :=
  some { line := 1, column := column }

/-- The token sequence of `a; b`. -/
def tokens_a_semi_b : List Token :=
  [tok "a" .IDENTIFIER 1, tok ";" .PUNCTUATION 2, tok "b" .IDENTIFIER 4]

/-- The token sequence of `a = b = c`. -/
def tokens_assign_chain : List Token :=
  [tok "a" .IDENTIFIER 1, tok "=" .OPERATOR 3, tok "b" .IDENTIFIER 5,
   tok "=" .OPERATOR 7, tok "c" .IDENTIFIER 9]

/-- The token sequence of `1 + 2`. -/
def tokens_one_plus_two : List Token :=
  [tok "1" .LITERAL 1, tok "+" .OPERATOR 3, tok "2" .LITERAL 5]

/-- The AST of `1 + 2` as the parser produces it. -/
def ast_one_plus_two : Expression :=
  .BinaryOp (.Literal (.int 1) (loc1 1)) "+" (.Literal (.int 2) (loc1 5)) (loc1 1)

/-- The AST of `if true then 1 else 2` as the parser produces it. -/
def ast_if_then_else : Expression :=
  .IfThenElse (.Literal (.bool true) (loc1 4)) (.Literal (.int 1) (loc1 14))
    (.Literal (.int 2) (loc1 21)) (loc1 1)

/-- A comparison `1 op 2` at the standard positions. -/
def cmp_ast (op : String) : Expression :=
  .BinaryOp (.Literal (.int 1) (loc1 1)) op (.Literal (.int 2) (loc1 5)) (loc1 1)

/-- Does an instruction call the given builtin? -/
def isCallTo (callee : String) : Instruction → Bool
  | .Call f _ _ _ => f.name == callee
  | _ => false

/-- Is an instruction a `CondJump` or a `Label` (the control-flow shapes a
short-circuit lowering would need)? -/
def isCondJumpOrLabel : Instruction → Bool
  | .CondJump _ _ _ _ => true
  | .Label _ => true
  | .Jump _ _ => true
  | _ => false

/-! ## Claims -/

/-- C1: the spec says parsing `a; b` (two top-level expressions separated by
`;`) returns a `TopLevel` node with a `returns_last` field set from the
trailing-semicolon rule. The code instead raises: `parse_top_level` passes
`returns_last=` to `my_ast.TopLevel`, whose `__init__` accepts no such
keyword (and the class has no such field), a `TypeError` — even though the
repository's own `parser_test.py`, typechecker and interpreter all construct
or read `TopLevel.returns_last`. This theorem evaluates the embedded parser
at the failing input. -/
theorem C1_parse_two_top_level_exprs_raises :
    parse 40 tokens_a_semi_b = .error (.typeErrorKwarg "TopLevel" "returns_last") := rfl

/-- C2: the claim says a comparison of two `Int` operands type checks to
`Bool`, the comparison operators' registered return type. The code registers
`<`, `<=`, `>`, `>=` as `(Int, Int) -> Int` (typechecker.py lines 25-28), so
`typecheck` succeeds but returns `Int`, not `Bool`, for all four comparison
operators — contradicting the spec and making comparisons unusable as
`IfThenElse` conditions. -/
theorem C2_comparisons_typecheck_to_Int :
    typecheck 40 (some (cmp_ast "<")) = .ok .Int
  ∧ typecheck 40 (some (cmp_ast "<=")) = .ok .Int
  ∧ typecheck 40 (some (cmp_ast ">")) = .ok .Int
  ∧ typecheck 40 (some (cmp_ast ">=")) = .ok .Int
  ∧ MyType.Int ≠ MyType.Bool :=
  ⟨rfl, rfl, rfl, rfl, fun h => nomatch h⟩

/-- C7: parsing the token sequence of `a = b = c` yields the
right-associative `BinaryOp(a, "=", BinaryOp(b, "=", c))`: at the `=` level
`parse_term` recurses without advancing the level index. -/
theorem C7_assignment_parses_right_associative :
    parse 40 tokens_assign_chain
      = .ok (.BinaryOp (.Identifier "a" (loc1 1)) "="
              (.BinaryOp (.Identifier "b" (loc1 5)) "=" (.Identifier "c" (loc1 9))
                (loc1 5))
              (loc1 1)) := rfl

mutual

/-- my_types equality agrees with structural equality: helper for the
`FunType` claim, mutually proved with its list version. -/
theorem myTypeEq_iff_eq : (s t : MyType) → (myTypeEq s t = true ↔ s = t)
  | .Int, .Int => by simp [myTypeEq]
  | .Int, .Bool => by simp [myTypeEq]
  | .Int, .Unit => by simp [myTypeEq]
  | .Int, .FunType _ _ => by simp [myTypeEq]
  | .Bool, .Int => by simp [myTypeEq]
  | .Bool, .Bool => by simp [myTypeEq]
  | .Bool, .Unit => by simp [myTypeEq]
  | .Bool, .FunType _ _ => by simp [myTypeEq]
  | .Unit, .Int => by simp [myTypeEq]
  | .Unit, .Bool => by simp [myTypeEq]
  | .Unit, .Unit => by simp [myTypeEq]
  | .Unit, .FunType _ _ => by simp [myTypeEq]
  | .FunType _ _, .Int => by simp [myTypeEq]
  | .FunType _ _, .Bool => by simp [myTypeEq]
  | .FunType _ _, .Unit => by simp [myTypeEq]
  | .FunType a r, .FunType b u => by
      rw [show myTypeEq (.FunType a r) (.FunType b u)
            = (myTypeListEq a b && myTypeEq r u) from rfl,
          Bool.and_eq_true, myTypeListEq_iff_eq a b, myTypeEq_iff_eq r u]
      constructor
      · rintro ⟨h1, h2⟩
        rw [h1, h2]
      · intro h
        injection h with h1 h2
        exact ⟨h1, h2⟩

/-- Python tuple equality of `type_args` agrees with list equality. -/
theorem myTypeListEq_iff_eq : (xs ys : List MyType) → (myTypeListEq xs ys = true ↔ xs = ys)
  | [], [] => by simp [myTypeListEq]
  | [], _ :: _ => by simp [myTypeListEq]
  | _ :: _, [] => by simp [myTypeListEq]
  | x :: xs, y :: ys => by
      rw [show myTypeListEq (x :: xs) (y :: ys)
            = (myTypeEq x y && myTypeListEq xs ys) from rfl,
          Bool.and_eq_true, myTypeEq_iff_eq x y, myTypeListEq_iff_eq xs ys]
      constructor
      · rintro ⟨h1, h2⟩
        rw [h1, h2]
      · intro h
        injection h with h1 h2
        exact ⟨h1, h2⟩

end

/-- C3 counterexample: the claim says any two `FunType` values are equal
(variant-only equality); in the code `FunType`'s dataclass-generated `__eq__`
compares `(type_args, return_type)`, so `FunType(Int -> Int)` and
`FunType(Bool, Bool -> Unit)` — the claim's own example pair — are unequal. -/
theorem C3_counterexample_funtype_eq_compares_signature :
    myTypeEq (.FunType [.Int] .Int) (.FunType [.Bool, .Bool] .Unit) = false := rfl

/-- C3 (amended): `FunType` equality is full structural equality, not
variant-only: the dataclass-generated `__eq__` makes two my_types values
(in particular two `FunType`s) equal exactly when they agree structurally
on argument-type tuples and return types. -/
theorem C3_funtype_equality_is_structural (s t : MyType) :
    myTypeEq s t = true ↔ s = t :=
  myTypeEq_iff_eq s t

set_option maxHeartbeats 4000000 in
/-- C4: the claim (like the repository's own `ir_generator_test.py`) expects
`generate_ir` on the type-checked `1 + 2` to end with a `Call` to
`print_int`. The code emits only the three instructions of the expression:
the finalization compares `root_expr.type` — an `Int()` *instance* — against
the imported `Int` *class*, which is always false, so no print call is ever
appended. -/
theorem C4_one_plus_two_ir_lacks_print_int :
    parse 40 tokens_one_plus_two = .ok ast_one_plus_two
  ∧ typecheck 40 (some ast_one_plus_two) = .ok .Int
  ∧ generate_ir 40 Option.none ast_one_plus_two (some .Int)
      = .ok [.LoadIntConst 1 ⟨"v0"⟩ (loc1 1),
             .LoadIntConst 2 ⟨"v1"⟩ (loc1 5),
             .Call ⟨"+"⟩ [⟨"v0"⟩, ⟨"v1"⟩] ⟨"v2"⟩ (loc1 1)]
  ∧ (generate_ir 40 Option.none ast_one_plus_two (some .Int)).map
      (fun l => l.any (isCallTo "print_int")) = .ok false :=
  ⟨rfl, rfl, rfl, rfl⟩

set_option maxHeartbeats 4000000 in
/-- C5: the claim (and the spec) describe `IfThenElse` lowering as
`CondJump(cond, then_label, else_label)` with the else branch's instructions
under the else label. The code has two slips at the claim's input
`if true then 1 else 2`: the `CondJump`'s false target is the *join* label
`L2` (not `L1 = l_else`), and under `L1` it lowers `then_expr` a second time
— `else_expr` (`LoadIntConst 2`) is never lowered at all, as the final
conjunct shows. -/
theorem C5_if_then_else_lowering_diverges :
    typecheck 40 (some ast_if_then_else) = .ok .Int
  ∧ generate_ir 40 Option.none ast_if_then_else (some .Int)
      = .ok [.LoadBoolConst true ⟨"v0"⟩ (loc1 4),
             .CondJump ⟨"v0"⟩ { loc := loc1 1, name := "L0" }
               { loc := loc1 1, name := "L2" } (loc1 1),
             .Label { loc := loc1 1, name := "L0" },
             .LoadIntConst 1 ⟨"v1"⟩ (loc1 14),
             .Jump { loc := loc1 1, name := "L2" } (loc1 1),
             .Label { loc := loc1 1, name := "L1" },
             .LoadIntConst 1 ⟨"v2"⟩ (loc1 14),
             .Label { loc := loc1 1, name := "L2" }]
  ∧ (generate_ir 40 Option.none ast_if_then_else (some .Int)).map
      (fun l => l.any (fun i =>
        match i with
        | .LoadIntConst 2 _ _ => true
        | _ => false)) = .ok false :=
  ⟨rfl, rfl, rfl⟩

set_option maxHeartbeats 4000000 in
/-- C6 counterexample: the claim says `or`/`and` lowering emits `CondJump`s
and labels that skip the right operand. Lowering `true or false` emits two
`LoadBoolConst` instructions and nothing else — no `CondJump`, no label, no
jump: the skip comes from inspecting the last emitted instruction. -/
theorem C6_counterexample_or_emits_no_condjump :
    generate_ir 40 Option.none
      (.BinaryOp (.Literal (.bool true) (loc1 1)) "or"
        (.Literal (.bool false) (loc1 9)) (loc1 1)) (some .Bool)
      = .ok [.LoadBoolConst true ⟨"v0"⟩ (loc1 1),
             .LoadBoolConst true ⟨"v1"⟩ (loc1 1)]
  ∧ (generate_ir 40 Option.none
      (.BinaryOp (.Literal (.bool true) (loc1 1)) "or"
        (.Literal (.bool false) (loc1 9)) (loc1 1)) (some .Bool)).map
      (fun l => l.any isCondJumpOrLabel) = .ok false :=
  ⟨rfl, rfl⟩

set_option maxHeartbeats 4000000 in
/-- C6 (amended): short-circuit `or`/`and` lowering is a post-hoc heuristic,
not conditional control flow: when the last emitted instruction after the
left operand is `LoadBoolConst True` (for `or`) or `LoadBoolConst False`
(for `and`), the lowering emits one fresh `LoadBoolConst` of that constant
and never lowers the right operand (the first two conjuncts hold for *every*
right operand); otherwise both operands are lowered into a plain `Call` —
and in no case are `CondJump`s or labels emitted. -/
theorem C6_short_circuit_is_last_instruction_heuristic
    (r r2 : Expression) :
    generate_ir 40 Option.none
      (.BinaryOp (.Literal (.bool true) (loc1 1)) "or" r (loc1 1)) (some .Bool)
      = .ok [.LoadBoolConst true ⟨"v0"⟩ (loc1 1),
             .LoadBoolConst true ⟨"v1"⟩ (loc1 1)]
  ∧ generate_ir 40 Option.none
      (.BinaryOp (.Literal (.bool false) (loc1 1)) "and" r2 (loc1 1)) (some .Bool)
      = .ok [.LoadBoolConst false ⟨"v0"⟩ (loc1 1),
             .LoadBoolConst false ⟨"v1"⟩ (loc1 1)]
  ∧ generate_ir 40 Option.none
      (.BinaryOp (.Literal (.bool false) (loc1 1)) "or"
        (.Literal (.bool true) (loc1 10)) (loc1 1)) (some .Bool)
      = .ok [.LoadBoolConst false ⟨"v0"⟩ (loc1 1),
             .LoadBoolConst true ⟨"v1"⟩ (loc1 10),
             .Call ⟨"or"⟩ [⟨"v0"⟩, ⟨"v1"⟩] ⟨"v2"⟩ (loc1 1)] :=
  ⟨rfl, rfl, rfl⟩

set_option maxHeartbeats 4000000 in
/-- C10: for every `UnaryOp` with operator `not` whose target is a `Literal`
— whatever value and location the literal carries — IR lowering emits
`LoadBoolConst False` into a fresh variable: the source negates the Literal
AST *object* (`not expr.target`), which is always truthy in Python. -/
theorem C10_not_literal_lowers_to_false (v : LitVal) (tloc : Option SourceLocation) :
    generate_ir 40 Option.none
      (.UnaryOp "not" (.Literal v tloc) (loc1 1)) (some .Unit)
      = .ok [.LoadBoolConst false ⟨"v0"⟩ (loc1 1)] := rfl

/-- C9: `Expression.__eq__` never compares node variants — it zips the two
`__dict__`s positionally and stops at the shorter one. So an `IfThen` equals
a `WhileDo` whenever their condition and body fields are pairwise equal
(whatever the source locations), and an `IfThen` equals the wider
`IfThenElse` whenever the shared two-field prefix agrees, the extra
`else_expr` being ignored. -/
theorem C9_ast_equality_ignores_variants (n : Nat) (c t c2 t2 e : Expression)
    (l1 l2 : Option SourceLocation)
    (hc : pyExprEq n c c2 = true) (ht : pyExprEq n t t2 = true) :
    pyExprEq (n + 1) (.IfThen c t l1) (.WhileDo c2 t2 l2) = true
  ∧ pyExprEq (n + 1) (.IfThen c t l1) (.IfThenElse c2 t2 e l2) = true := by
  refine ⟨?_, ?_⟩ <;>
  · simp only [pyExprEq, fieldsOf, pyFieldsEq, pyValEq, hc, ht]
    simp

/-- C9 witness: concrete instances of both example pairs of the claim. -/
theorem C9_ast_equality_ignores_variants_witness :
    pyExprEq 2 (.IfThen (.Identifier "c" (loc1 1)) (.Identifier "x" (loc1 3)) (loc1 1))
               (.WhileDo (.Identifier "c" (loc1 7)) (.Identifier "x" (loc1 9)) Option.none)
      = true
  ∧ pyExprEq 2 (.IfThen (.Identifier "c" (loc1 1)) (.Identifier "x" (loc1 3)) (loc1 1))
               (.IfThenElse (.Identifier "c" (loc1 7)) (.Identifier "x" (loc1 9))
                 (.Literal (.int 5) (loc1 11)) Option.none)
      = true :=
  C9_ast_equality_ignores_variants 1
    (.Identifier "c" (loc1 1)) (.Identifier "x" (loc1 3))
    (.Identifier "c" (loc1 7)) (.Identifier "x" (loc1 9))
    (.Literal (.int 5) (loc1 11)) (loc1 1) Option.none
    (by simp [pyExprEq, fieldsOf, pyFieldsEq, pyValEq])
    (by simp [pyExprEq, fieldsOf, pyFieldsEq, pyValEq])

/-! ## Machinery for C8: first-occurrence slot assignment -/

/-- All `IRVar` occurrences of an instruction list, flattened in the order
`get_all_ir_variables` walks them. -/
def varOccurrences (instructions : List Instruction) : List IRVar :=
  (instructions.map instructionIRVars).flatten

/-- The spec's words for `get_all_ir_variables`: the distinct variables in
order of first occurrence (keep the head, drop its later duplicates). -/
def firstOccurrences : List IRVar → List IRVar
  | [] => []
  | x :: xs => x :: firstOccurrences (xs.filter (fun y => decide (y ≠ x)))
  termination_by l => l.length
  decreasing_by exact Nat.lt_succ_of_le (List.length_filter_le _ _)

theorem foldl_addVar_flatten : ∀ (ll : List (List IRVar)) (acc : List IRVar),
    ll.foldl (fun a l => l.foldl addVar a) acc = ll.flatten.foldl addVar acc
  | [], _ => rfl
  | l :: rest, acc => by
      rw [List.foldl_cons, List.flatten_cons, List.foldl_append,
        foldl_addVar_flatten rest]

theorem firstOccurrences_cons (x : IRVar) (xs : List IRVar) :
    firstOccurrences (x :: xs)
      = x :: firstOccurrences (xs.filter (fun y => decide (y ≠ x))) := by
  simp [firstOccurrences]

theorem foldl_addVar_eq : ∀ (l acc : List IRVar),
    l.foldl addVar acc
      = acc ++ firstOccurrences (l.filter (fun y => decide (y ∉ acc)))
  | [], acc => by simp [firstOccurrences]
  | x :: xs, acc => by
      rw [List.foldl_cons]
      by_cases hx : x ∈ acc
      · rw [show addVar acc x = acc from by simp [addVar, hx],
          foldl_addVar_eq xs acc, List.filter_cons]
        simp [hx]
      · rw [show addVar acc x = acc ++ [x] from by simp [addVar, hx],
          foldl_addVar_eq xs (acc ++ [x])]
        have hcons : (x :: xs).filter (fun y => decide (y ∉ acc))
            = x :: xs.filter (fun y => decide (y ∉ acc)) := by
          rw [List.filter_cons]
          simp [hx]
        rw [hcons, firstOccurrences_cons, List.append_assoc, List.singleton_append,
          List.filter_filter]
        have hfil :
            xs.filter (fun y => decide (y ∉ acc ++ [x]))
              = xs.filter (fun y => decide (y ≠ x) && decide (y ∉ acc)) := by
          apply List.filter_congr
          intro y _
          by_cases hyx : y = x
          · simp [hyx]
          · by_cases hya : y ∈ acc <;> simp [hyx, hya]
        rw [hfil]
  termination_by l _ => l.length
  decreasing_by all_goals simp_wf

theorem nodup_foldl_addVar : ∀ (l acc : List IRVar),
    acc.Nodup → (l.foldl addVar acc).Nodup
  | [], _, h => h
  | x :: xs, acc, h => by
      rw [List.foldl_cons]
      apply nodup_foldl_addVar xs
      by_cases hx : x ∈ acc
      · simpa [addVar, hx] using h
      · simp [addVar, hx, List.nodup_append, h]

theorem get_all_ir_variables_eq (ins : List Instruction) :
    get_all_ir_variables ins = firstOccurrences (varOccurrences ins) := by
  have h1 : get_all_ir_variables ins
      = (ins.map instructionIRVars).foldl (fun a l => l.foldl addVar a) [] := by
    rw [List.foldl_map]
    rfl
  rw [h1, foldl_addVar_flatten, foldl_addVar_eq]
  have : (varOccurrences ins).filter (fun y => decide (y ∉ ([] : List IRVar)))
      = varOccurrences ins := by
    apply List.filter_eq_self.mpr
    intro y _
    simp
  rw [varOccurrences] at this ⊢
  rw [this, List.nil_append]

theorem nodup_get_all_ir_variables (ins : List Instruction) :
    (get_all_ir_variables ins).Nodup := by
  have h1 : get_all_ir_variables ins
      = (ins.map instructionIRVars).foldl (fun a l => l.foldl addVar a) [] := by
    rw [List.foldl_map]
    rfl
  rw [h1, foldl_addVar_flatten]
  exact nodup_foldl_addVar _ _ List.nodup_nil

/-- The slot dict `Locals.__init__` builds over distinct variables, relative
to a starting offset. -/
def slotList : Int → List IRVar → List (IRVar × String)
  | _, [] => []
  | off, v :: rest => (v, toString (off - 8) ++ "(%rbp)") :: slotList (off - 8) rest

theorem locals_fold_eq : ∀ (vars : List IRVar) (acc : List (IRVar × String)) (off : Int),
    vars.Nodup →
    (∀ v ∈ vars, acc.find? (fun p => p.1 == v) = Option.none) →
    vars.foldl locals_step (acc, off)
      = (acc ++ slotList off vars, off - 8 * vars.length)
  | [], acc, off, _, _ => by simp [slotList]
  | v :: rest, acc, off, hnd, hdisj => by
      rw [List.foldl_cons]
      have hv : acc.find? (fun p => p.1 == v) = Option.none :=
        hdisj v (List.mem_cons_self _ _)
      have hstep : locals_step (acc, off) v
          = (acc ++ [(v, toString (off - 8) ++ "(%rbp)")], off - 8) := by
        simp [locals_step, dset, hv]
      rw [hstep,
        locals_fold_eq rest (acc ++ [(v, toString (off - 8) ++ "(%rbp)")]) (off - 8)
          (List.Nodup.of_cons hnd)
          (by
            intro u hu
            rw [List.find?_append]
            have hau : acc.find? (fun p => p.1 == u) = Option.none :=
              hdisj u (List.mem_cons_of_mem _ hu)
            have hvu : (v == u) = false := by
              rw [beq_eq_false_iff_ne]
              intro heq
              exact (List.nodup_cons.mp hnd).1 (heq ▸ hu)
            simp [hau, List.find?, hvu])]
      rw [slotList, List.append_assoc, List.singleton_append]
      simp only [Prod.mk.injEq, List.length_cons]
      refine ⟨trivial, ?_⟩
      push_cast
      ring

theorem slotList_find : ∀ (vars : List IRVar) (off : Int) (i : Nat)
    (h : i < vars.length), vars.Nodup →
    (slotList off vars).find? (fun p => p.1 == vars.get ⟨i, h⟩)
      = some (vars.get ⟨i, h⟩, toString (off - 8 * ((i : Int) + 1)) ++ "(%rbp)")
  | v :: rest, off, 0, _, _ => by
      simp only [slotList, List.find?, List.get]
      have : (off - 8) = off - 8 * ((0 : Int) + 1) := by ring
      simp [this]
  | v :: rest, off, i + 1, h, hnd => by
      have hlt : i < rest.length := Nat.lt_of_succ_lt_succ h
      have hget : (v :: rest).get ⟨i + 1, h⟩ = rest.get ⟨i, hlt⟩ := rfl
      have hvne : (v == rest.get ⟨i, hlt⟩) = false := by
        have hmem : rest.get ⟨i, hlt⟩ ∈ rest := List.get_mem rest i hlt
        have := (List.nodup_cons.mp hnd).1
        simp only [beq_eq_false_iff_ne, ne_eq]
        intro hcontra
        exact this (hcontra ▸ hmem)
      rw [hget, slotList, List.find?]
      simp only [hvne]
      rw [slotList_find rest (off - 8) i hlt (List.Nodup.of_cons hnd)]
      have : off - 8 - 8 * ((i : Int) + 1) = off - 8 * (((i : Int) + 1) + 1) := by ring
      rw [this]
      norm_cast

theorem get_ref_make (vars : List IRVar) (hnd : vars.Nodup) (i : Nat)
    (h : i < vars.length) :
    (Locals.make vars).get_ref (vars.get ⟨i, h⟩)
      = some (toString (-(8 * ((i : Int) + 1))) ++ "(%rbp)") := by
  show ((vars.foldl locals_step ([], 0)).1.find?
      (fun p => p.1 == vars.get ⟨i, h⟩)).map (·.2) = _
  rw [locals_fold_eq vars [] 0 hnd (by intro v _; rfl), List.nil_append,
    slotList_find vars 0 i h hnd]
  have : (0 : Int) - 8 * ((i : Int) + 1) = -(8 * ((i : Int) + 1)) := by ring
  rw [this]
  rfl

theorem stack_used_make (vars : List IRVar) (hnd : vars.Nodup) :
    (Locals.make vars).stack_used = 8 * vars.length := by
  show (vars.foldl locals_step ([], 0)).2.natAbs = _
  rw [locals_fold_eq vars [] 0 hnd (by intro v _; rfl)]
  simp
  omega

set_option maxHeartbeats 1000000 in
/-- C8: `generate_assembly` assigns each distinct `IRVar` — collected in
first-occurrence order (`get_all_ir_variables` equals the dedup-keep-first of
the flattened occurrence stream) — the stack reference `-8(i+1)(%rbp)` for
slot index `i`, and the prologue's tenth line reserves exactly 8 bytes per
distinct variable with `subq`. -/
theorem C8_stack_slot_assignment (ins : List Instruction) (intr : Intrinsics) :
    get_all_ir_variables ins = firstOccurrences (varOccurrences ins)
  ∧ (Locals.make (get_all_ir_variables ins)).stack_used
      = 8 * (get_all_ir_variables ins).length
  ∧ (∀ (i : Nat) (h : i < (get_all_ir_variables ins).length),
      (Locals.make (get_all_ir_variables ins)).get_ref
          ((get_all_ir_variables ins).get ⟨i, h⟩)
        = some (toString (-(8 * ((i : Int) + 1))) ++ "(%rbp)"))
  ∧ (∀ lines, generate_assembly_lines intr ins = .ok lines →
      lines[9]? = some ("subq $"
        ++ toString (8 * (get_all_ir_variables ins).length) ++ ", %rsp")) := by
  refine ⟨get_all_ir_variables_eq ins,
    stack_used_make _ (nodup_get_all_ir_variables ins),
    fun i h => get_ref_make _ (nodup_get_all_ir_variables ins) i h,
    fun lines hlines => ?_⟩
  unfold generate_assembly_lines at hlines
  simp only [bind, Except.bind] at hlines
  cases hmap : ins.mapM (emit_instruction (Locals.make (get_all_ir_variables ins)) intr) with
  | error e =>
      rw [hmap] at hlines
      simp at hlines
  | ok bodies =>
      rw [hmap] at hlines
      have hl : prologue_lines (Locals.make (get_all_ir_variables ins)).stack_used
          ++ bodies.flatten ++ epilogue_lines = lines := by
        simpa using hlines
      rw [← hl, stack_used_make _ (nodup_get_all_ir_variables ins)]
      simp [prologue_lines]

/-- C8 witness: the single-instruction IR `LoadIntConst(1, v0)` gets `v0`
the slot `-8(%rbp)` and a prologue reserving 8 bytes. -/
theorem C8_stack_slot_assignment_witness :
    (Locals.make (get_all_ir_variables [Instruction.LoadIntConst 1 ⟨"v0"⟩ Option.none])).get_ref
        ((get_all_ir_variables [Instruction.LoadIntConst 1 ⟨"v0"⟩ Option.none]).get
          ⟨0, by decide⟩)
      = some (toString (-(8 * ((0 : Int) + 1))) ++ "(%rbp)")
  ∧ ([".extern print_int", ".extern print_bool", ".extern read_int",
      ".global main", ".type main, @ function", ".section .text",
      "main:", "pushq %rbp", "movq %rsp, %rbp", "subq $8, %rsp",
      "# LoadIntConst(None, 1, v0)", "movq $1, -8(%rbp)",
      "movq $0, %rax", "movq %rbp, %rsp", "popq %rbp", "ret"] : List String)[9]?
      = some ("subq $"
        ++ toString (8 * (get_all_ir_variables
              [Instruction.LoadIntConst 1 ⟨"v0"⟩ Option.none]).length) ++ ", %rsp") :=
  ⟨(C8_stack_slot_assignment [Instruction.LoadIntConst 1 ⟨"v0"⟩ Option.none] []).2.2.1
      0 (by decide),
   (C8_stack_slot_assignment [Instruction.LoadIntConst 1 ⟨"v0"⟩ Option.none] []).2.2.2
      [".extern print_int", ".extern print_bool", ".extern read_int",
       ".global main", ".type main, @ function", ".section .text",
       "main:", "pushq %rbp", "movq %rsp, %rbp", "subq $8, %rsp",
       "# LoadIntConst(None, 1, v0)", "movq $1, -8(%rbp)",
       "movq $0, %rax", "movq %rbp, %rsp", "popq %rbp", "ret"] rfl⟩

end Spec2Proof
